import Mathlib

set_option maxHeartbeats 1000000
set_option maxRecDepth 4000

/-!
Shallow embedding of the PCI configuration-space enumeration and
resource-binding engine of `src/node_modules/runtimejs/core/pci/scan.js`.

JavaScript 32-bit unsigned coercions (`x >>> 0`) are modelled as `x % 2 ^ 32`
on `Nat`; `~x` followed by `>>> 0` on a 32-bit value is `0xffffffff - x`.
Fallible operations (the source throws `Error`) return `Except String`.
-/

/-- JS coercion `x >>> 0`: truncation to an unsigned 32-bit value. -/
def mask32 (x : Nat) : Nat := x % 2 ^ 32

/-- JS `~x >>> 0` applied to a 32-bit value: bitwise complement within
32 bits (two's complement identity: `~x = 2^32 - 1 - x` on bit patterns). -/
def not32 (x : Nat) : Nat := 0xffffffff - x % 2 ^ 32

/-- PCI configuration-space field descriptor (scan.js field tables):
a dword-aligned byte `offset`, a byte `shift` inside the dword and a value
`mask`. -/
structure ConfigField where
  offset : Nat
  shift : Nat
  mask : Nat
deriving DecidableEq

namespace fields

/-- scan.js line 44. -/
def VENDOR_ID : ConfigField := ⟨0x00, 0, 0xffff⟩

/-- scan.js line 45. -/
def DEVICE_ID : ConfigField := ⟨0x00, 2, 0xffff⟩

/-- scan.js line 47. -/
def COMMAND : ConfigField := ⟨0x04, 0, 0xffff⟩

/-- scan.js line 48. -/
def STATUS : ConfigField := ⟨0x04, 2, 0xffff⟩

/-- scan.js line 50. -/
def REVISION_ID : ConfigField := ⟨0x08, 0, 0xff⟩

/-- scan.js line 51. -/
def PROG_IF : ConfigField := ⟨0x08, 1, 0xff⟩

/-- scan.js line 52. -/
def SUBCLASS : ConfigField := ⟨0x08, 2, 0xff⟩

/-- scan.js line 53. -/
def CLASS_CODE : ConfigField := ⟨0x08, 3, 0xff⟩

/-- scan.js line 55. -/
def CACHE_LINESIZE : ConfigField := ⟨0x0c, 0, 0xff⟩

/-- scan.js line 56. -/
def LATENCY_TIMER : ConfigField := ⟨0x0c, 1, 0xff⟩

/-- scan.js line 57. -/
def HEADER_TYPE : ConfigField := ⟨0x0c, 2, 0xff⟩

/-- scan.js line 58. -/
def BIST : ConfigField := ⟨0x0c, 3, 0xff⟩

end fields

namespace generalFields

/-- scan.js lines 66-71: the six base-address registers of a general
(header type 0x00) device. -/
def BAR : List ConfigField :=
  [⟨0x10, 0, 0xffffffff⟩, ⟨0x14, 0, 0xffffffff⟩, ⟨0x18, 0, 0xffffffff⟩,
   ⟨0x1c, 0, 0xffffffff⟩, ⟨0x20, 0, 0xffffffff⟩, ⟨0x24, 0, 0xffffffff⟩]

/-- scan.js line 73. -/
def SUBSYS_VENDOR : ConfigField := ⟨0x2c, 0, 0xffff⟩

/-- scan.js line 74. -/
def SUBSYS_ID : ConfigField := ⟨0x2c, 2, 0xffff⟩

/-- scan.js line 76. -/
def INTERRUPT_LINE : ConfigField := ⟨0x3c, 0, 0xff⟩

/-- scan.js line 77. -/
def INTERRUPT_PIN : ConfigField := ⟨0x3c, 1, 0xff⟩

end generalFields

namespace bridgeFields

/-- scan.js line 85. -/
def PRIMARY_BUS : ConfigField := ⟨0x18, 0, 0xff⟩

/-- scan.js line 86. -/
def SECONDARY_BUS : ConfigField := ⟨0x18, 1, 0xff⟩

/-- scan.js line 87. -/
def SUBORDINATE : ConfigField := ⟨0x18, 2, 0xff⟩

end bridgeFields

/-- Modelled from the spec: the configuration-space hardware backend behind
the address/data port pair (`resources.ioRange`, ports 0xCF8/0xCFC) is not
part of the source tree. Following section 4.6 and the simulated backend of
section 8 of the spec, each dword-aligned offset holds a register with a
per-offset writable-bit mask `wmask`: a write updates only the writable bits,
so a BAR whose low bits are hardwired answers the all-ones size probe with
its size-encoding mask, while a RAM-like register has `wmask = 0xffffffff`. -/
structure HwState where
  regs : Nat → Nat
  wmask : Nat → Nat

/-- Byte-lane mask: `width` bytes starting at byte `lane` of a dword. -/
def laneMask (lane width : Nat) : Nat := (2 ^ (8 * width) - 1) <<< (8 * lane)

/-- Hardware effect of a naturally aligned `width`-byte write of `value` at
byte lane `lane` of the dword register at offset `o`: only writable bits
inside the lane change. -/
def hwWrite (hw : HwState) (o lane width value : Nat) : HwState :=
  let effMask := hw.wmask o &&& 0xffffffff &&& laneMask lane width
  let newVal := (value % 2 ^ (8 * width)) <<< (8 * lane) &&& effMask |||
      hw.regs o % 2 ^ 32 &&& (0xffffffff ^^^ effMask)
  { hw with regs := fun q => if q = o then newVal else hw.regs q }

/-- Hardware dword read at offset `o` (the data port returns 32 bits). -/
def hwRead (hw : HwState) (o : Nat) : Nat := hw.regs o % 2 ^ 32

/-- State of a `PciAccessor` (scan.js lines 115-194): the device's view of
the configuration-space hardware plus the per-offset read cache
(`offsetCache`). -/
structure AccessorState where
  hw : HwState
  cache : Nat → Option Nat

/-- scan.js lines 105-108: extract a field value from a raw dword. -/
def dwToFieldValue (value : Nat) (f : ConfigField) : Nat :=
  value >>> (8 * f.shift) &&& f.mask

/-- scan.js lines 160-171, method `read`: serve the dword from the
per-offset cache when present, otherwise read the hardware and fill the
cache; then decode the field. -/
def accessorRead (s : AccessorState) (f : ConfigField) : Nat × AccessorState :=
  match s.cache f.offset with
  | some value => (dwToFieldValue value f, s)
  | none =>
    let value := hwRead s.hw f.offset
    (dwToFieldValue value f,
     { s with cache := fun o => if o = f.offset then some value else s.cache o })

/-- JS `offsetCache.delete(offset)`. -/
def cacheDelete (c : Nat → Option Nat) (offset : Nat) : Nat → Option Nat :=
  fun o => if o = offset then none else c o

/-- scan.js lines 134-141, `writeRaw32`: aligned 32-bit write of
`value >>> 0` into the addressed dword. -/
def writeRaw32 (s : AccessorState) (offset value : Nat) : Except String AccessorState :=
  if offset % 4 ≠ 0 then .error ("unaligned pci space 32-bit write")
  else .ok { s with hw := hwWrite s.hw offset 0 4 (value % 2 ^ 32) }

/-- scan.js lines 143-150, `writeRaw16`: aligned 16-bit write of
`value & 0xffff`; the address select masks the offset to its dword
(`offset & 0xfc`), the write lands on the byte lane `offset % 4`. -/
def writeRaw16 (s : AccessorState) (offset value : Nat) : Except String AccessorState :=
  if offset % 2 ≠ 0 then .error ("unaligned pci space 16-bit write")
  else .ok { s with hw := hwWrite s.hw (offset - offset % 4) (offset % 4) 2 (value &&& 0xffff) }

/-- scan.js lines 152-155, `writeRaw8`: 8-bit write of `value & 0xff`
(the source performs no alignment check for byte writes). -/
def writeRaw8 (s : AccessorState) (offset value : Nat) : Except String AccessorState :=
  .ok { s with hw := hwWrite s.hw (offset - offset % 4) (offset % 4) 1 (value &&& 0xff) }

/-- scan.js lines 176-186, method `write`: evict the cached dword for the
field's offset first, then dispatch the hardware write on the mask width;
any other mask is an invalid-field-mask error. -/
def accessorWrite (s : AccessorState) (f : ConfigField) (value : Nat) : Except String AccessorState :=
  let s1 : AccessorState := { s with cache := cacheDelete s.cache f.offset }
  if f.mask = 0xffffffff then writeRaw32 s1 f.offset value
  else if f.mask = 0xffff then writeRaw16 s1 (f.offset + f.shift) value
  else if f.mask = 0xff then writeRaw8 s1 (f.offset + f.shift) value
  else .error ("invalid pci space field mask")

/-- Resource handles produced by the external collaborators
`resources.ioRange.subrange` and `resources.memoryRange.block`
(spec section 6); opaque value constructors here. -/
inductive Resource where
  | ioSubrange (base last : Nat)
  | memBlock (base size : Nat)
deriving DecidableEq

/-- Result record of `PciDevice.getBAR` (scan.js lines 578-583). -/
structure BarResult where
  type : String
  base : Nat
  size : Nat
  resource : Resource
deriving DecidableEq

/-- IRQ handle produced by the external collaborator
`resources.irqRange.irq` (spec section 6). -/
inductive IrqHandle where
  | irq (vector : Nat)
deriving DecidableEq

/-- One ACPI IRQ routing entry as consumed by the routing pass
(scan.js lines 727-741): `deviceId` is the slot, `pin` is 0-based. -/
structure Route where
  deviceId : Nat
  pin : Nat
  irq : Nat
deriving DecidableEq

/-- Data observable on one ACPI device node through the capability
interface used by scan.js: `isDevice()`, `isRootBridge()`, `address()`
and `getRootBridgeBusNumber()` (spec section 6). -/
structure AcpiNodeData where
  isDevice : Bool
  isRootBridge : Bool
  address : Nat
  rootBridgeBusNumber : Nat
  irqRoutingTable : Option (List Route)
deriving DecidableEq

/-- An ACPI device node: its own observable data plus the chain of
ancestor data records; `parent()` returns the head of `ancestors`. -/
structure AcpiDev where
  data : AcpiNodeData
  ancestors : List AcpiNodeData
deriving DecidableEq

/-- JS `dev.parent()`: the next node up the ACPI tree, or none. -/
def AcpiDev.parent (d : AcpiDev) : Option AcpiDev :=
  match d.ancestors with
  | [] => none
  | p :: rest => some ⟨p, rest⟩

/-- PCI device address triple; scan.js bounds-checks bus 0-255,
slot 0-31, func 0-7 at accessor construction. -/
structure PciAddress where
  bus : Nat
  slot : Nat
  func : Nat
deriving DecidableEq

/-- scan.js lines 342-361: readable names for PCI class codes. -/
def classCodes : List String :=
  ["Unclassified",
   "Mass Storage Controller",
   "Network Controller",
   "Display Controller",
   "Multimedia Controller",
   "Memory Controller",
   "Bridge Device",
   "Simple Communication Controller",
   "Base System Peripheral",
   "Input Device",
   "Docking Station",
   "Processor",
   "Serial Bus Controller",
   "Wireless Controller",
   "Intelligent I/O Controller",
   "Satellite Communication Controller",
   "Encryption/Decryption Controller",
   "Data Acquisition and Signal Processing Controller"]

/-- scan.js lines 367-373: class code to name, defaulting to entry 0. -/
def classCodeToName (code : Nat) : String :=
  match classCodes.get? code with
  | none => classCodes.getD 0 ("")
  | some name => name

/-- Class data record returned by `PciDevice.classData`
(scan.js lines 485-489). -/
structure ClassData where
  classCode : Nat
  className : String
  subclass : Nat
deriving DecidableEq

/-- Subsystem data record returned by `PciDevice.subsystemData`
(scan.js lines 496-500). -/
structure SubsystemData where
  subsystemId : Nat
  subsystemVendor : Nat
deriving DecidableEq

/-- State of one `PciDevice` (scan.js lines 380-396): the values read at
construction, the two assign-once optional fields, and the device's
configuration-space accessor (the JS object holds `pciAccessor`). -/
structure PciDev where
  address : PciAddress
  vendorId : Nat
  deviceId : Nat
  isBridge : Bool
  acpiDevice : Option AcpiDev
  irqVector : Option Nat
  acc : AccessorState

/-- scan.js lines 380-396, the `PciDevice` constructor: read vendor id,
device id and header type through the accessor; the device is a bridge
when the header type with the multifunction bit masked off is 1 or 2. -/
def mkPciDevice (address : PciAddress) (s : AccessorState) : PciDev :=
  let r1 := accessorRead s fields.VENDOR_ID
  let r2 := accessorRead r1.2 fields.DEVICE_ID
  let r3 := accessorRead r2.2 fields.HEADER_TYPE
  let headerType := r3.1 &&& 0x7f
  { address := address, vendorId := r1.1, deviceId := r2.1,
    isBridge := headerType = 0x01 || headerType = 0x02,
    acpiDevice := none, irqVector := none, acc := r3.2 }

/-- scan.js lines 401-407, `attachAcpiDevice`: silently keep the first
attached handle; a second attachment attempt returns without any effect
and without any error. -/
def PciDev.attachAcpiDevice (dev : PciDev) (acpiDevice : AcpiDev) : PciDev :=
  match dev.acpiDevice with
  | some _ => dev
  | none => { dev with acpiDevice := some acpiDevice }

/-- scan.js lines 450-452, `getIRQVector`. -/
def PciDev.getIRQVector (dev : PciDev) : Option Nat := dev.irqVector

/-- scan.js lines 457-463, `setIRQVector`: assign-once; a second call
throws with the message modelled here as an error value, and the stored
vector is the `>>> 0` coercion of the argument. -/
def PciDev.setIRQVector (dev : PciDev) (vector : Nat) : Except String PciDev :=
  match dev.irqVector with
  | some _ => .error ("IRQ vector already set")
  | none => .ok { dev with irqVector := some (vector % 2 ^ 32) }

/-- scan.js lines 433-439, `getSecondaryBus`: bridge-only read of the
secondary bus register; threading the accessor cache state. -/
def PciDev.getSecondaryBus (dev : PciDev) : Except String (Nat × PciDev) :=
  if !dev.isBridge then .error ("device is not a bridge")
  else
    let r := accessorRead dev.acc bridgeFields.SECONDARY_BUS
    .ok (r.1, { dev with acc := r.2 })

/-- scan.js lines 468-474, `interruptPin`: general-device-only read of the
interrupt pin register. -/
def PciDev.interruptPin (dev : PciDev) : Except String (Nat × PciDev) :=
  if dev.isBridge then .error ("device is a bridge")
  else
    let r := accessorRead dev.acc generalFields.INTERRUPT_PIN
    .ok (r.1, { dev with acc := r.2 })

/-- scan.js lines 441-445, `setCommandFlag`: read-modify-write OR of one
bit into the command register. -/
def PciDev.setCommandFlag (dev : PciDev) (flag : Nat) : Except String PciDev :=
  let r := accessorRead dev.acc fields.COMMAND
  let value := r.1 ||| (1 <<< (flag % 32)) % 2 ^ 32
  match accessorWrite r.2 fields.COMMAND value with
  | .error e => .error e
  | .ok s2 => .ok { dev with acc := s2 }

/-- scan.js lines 480-490, `classData`: read class code and subclass and
resolve the class name. -/
def PciDev.classData (dev : PciDev) : ClassData × PciDev :=
  let r1 := accessorRead dev.acc fields.CLASS_CODE
  let r2 := accessorRead r1.2 fields.SUBCLASS
  (⟨r1.1, classCodeToName r1.1, r2.1⟩, { dev with acc := r2.2 })

/-- scan.js lines 492-501, `subsystemData`: general-device-only read of
the subsystem id and subsystem vendor. -/
def PciDev.subsystemData (dev : PciDev) : Except String (SubsystemData × PciDev) :=
  if dev.isBridge then .error ("device is a bridge")
  else
    let r1 := accessorRead dev.acc generalFields.SUBSYS_ID
    let r2 := accessorRead r1.2 generalFields.SUBSYS_VENDOR
    .ok (⟨r1.1, r2.1⟩, { dev with acc := r2.2 })

/-- scan.js lines 507-584, `getBAR`: bridge and index guards, read the raw
BAR, absent when zero; probe by writing all-ones, reading the size
response and restoring the original value; then classify.  In the 64-bit
branch (`barAddr & BAR_64`, checked before the I/O bit) the source sets
`barType = 'mem64'` but never builds a resource object, so the final
`null === barType || null === obj` check yields null. -/
def PciDev.getBAR (dev : PciDev) (index : Nat) :
    Except String (Option BarResult × PciDev) :=
  if dev.isBridge then .error ("device is a bridge")
  else if index > 5 then .error ("invalid BAR register index (expected 0-5)")
  else
    let barField := generalFields.BAR.getD index ⟨0, 0, 0⟩
    let r1 := accessorRead dev.acc barField
    let barAddr := r1.1
    if barAddr = 0 then .ok (none, { dev with acc := r1.2 })
    else
      match accessorWrite r1.2 barField 0xffffffff with
      | .error e => .error e
      | .ok s2 =>
        let r2 := accessorRead s2 barField
        let barSize := r2.1
        match accessorWrite r2.2 barField (barAddr % 2 ^ 32) with
        | .error e => .error e
        | .ok s4 =>
          if barSize = 0 then .ok (none, { dev with acc := s4 })
          else
            if barAddr &&& 0x04 ≠ 0 then
              let barType : Option String := some ("mem64")
              let obj : Option Resource := none
              match barType, obj with
              | some t, some o => .ok (some ⟨t, 0, 0, o⟩, { dev with acc := s4 })
              | _, _ => .ok (none, { dev with acc := s4 })
            else if barAddr &&& 0x01 ≠ 0 then
              let base := barAddr &&& 0xfffffffc &&& 0xffff
              let size := (not32 (barSize &&& 0xfffffffc) + 1) &&& 0xffff
              if size = 0 then .ok (none, { dev with acc := s4 })
              else if base = 0 then .ok (none, { dev with acc := s4 })
              else
                .ok (some ⟨"io", base, size, Resource.ioSubrange base (base + size - 1)⟩,
                     { dev with acc := s4 })
            else
              let base := barAddr &&& 0xfffffff0
              let size := (not32 (barSize &&& 0xfffffff0) + 1) &&& 0xffffffff
              if size = 0 then .ok (none, { dev with acc := s4 })
              else
                .ok (some ⟨"mem32", base, size, Resource.memBlock base size⟩,
                     { dev with acc := s4 })

/-- Projection of `getBAR` to its returned descriptor. -/
def PciDev.getBARresult (dev : PciDev) (index : Nat) : Except String (Option BarResult) :=
  (dev.getBAR index).map Prod.fst

namespace commandFlags

/-- scan.js lines 590-601: `PciDevice.commandFlags`. -/
def IOSpace : Nat := 0

def MemorySpace : Nat := 1

def BusMaster : Nat := 2

def SpecialCycles : Nat := 3

def MemoryWriteInvalidate : Nat := 4

def VGAPaletteSnoop : Nat := 5

def ParityError : Nat := 6

def SERR : Nat := 8

def BackToBack : Nat := 9

def InterruptDisable : Nat := 10

end commandFlags

/-- Global configuration-space read view used by the ACPI resolver:
`cfg bus slot func offset` is the raw dword.  `locateAcpiDevice` only ever
reads, and reads through a coherent accessor cache return the hardware
value, so the cache is not threaded here. -/
def PciCfg : Type := Nat → Nat → Nat → Nat → Nat

/-- Field read against the global view (setPort + readRaw32 + decode). -/
def cfgReadField (cfg : PciCfg) (bus slot func : Nat) (f : ConfigField) : Nat :=
  dwToFieldValue (cfg bus slot func f.offset % 2 ^ 32) f

/-- scan.js lines 225-290, `locateAcpiDevice`: map an ACPI node to a PCI
address.  Non-device nodes, nodes with a missing or non-device parent, and
nodes whose recursively resolved parent is not bridge-typed resolve to
`none`; `pciAccessorFactory.get` on the resolved parent address validates
the bus/slot/func bounds and its validation errors propagate. -/
def locateAcpiDevice (cfg : PciCfg) :
    AcpiNodeData → List AcpiNodeData → Except String (Option PciAddress)
  | d, anc =>
    if !d.isDevice then .ok none
    else
      let slotId := d.address >>> 16 &&& 0xffff
      let funcId := d.address &&& 0xffff
      if d.isRootBridge then .ok (some ⟨d.rootBridgeBusNumber, slotId, funcId⟩)
      else
        match anc with
        | [] => .ok none
        | parentDev :: rest =>
          if !parentDev.isDevice then .ok none
          else if parentDev.isRootBridge then
            .ok (some ⟨parentDev.rootBridgeBusNumber, slotId, funcId⟩)
          else
            match locateAcpiDevice cfg parentDev rest with
            | .error e => .error e
            | .ok none => .ok none
            | .ok (some parentLocation) =>
              if parentLocation.bus % 2 ^ 32 > 255 then
                .error ("invalid bus value (expected 0-255)")
              else if parentLocation.slot % 2 ^ 32 > 31 then
                .error ("invalid slot value (expected 0-31)")
              else if parentLocation.func % 2 ^ 32 > 7 then
                .error ("invalid func value (expected 0-7)")
              else
                let header := cfgReadField cfg (parentLocation.bus % 2 ^ 32)
                  (parentLocation.slot % 2 ^ 32) (parentLocation.func % 2 ^ 32)
                  fields.HEADER_TYPE
                let headerType := header &&& 0x7f
                if headerType ≠ 0x01 ∧ headerType ≠ 0x02 then .ok none
                else
                  let bridgeBus := cfgReadField cfg (parentLocation.bus % 2 ^ 32)
                    (parentLocation.slot % 2 ^ 32) (parentLocation.func % 2 ^ 32)
                    bridgeFields.SECONDARY_BUS
                  .ok (some ⟨bridgeBus, slotId, funcId⟩)

/-- JS `pciManager.findDevice` (scan.js lines 613-621): registry lookup by
address; the registry map key is the serialized address triple. -/
def findDevice (devices : List PciDev) (address : PciAddress) : Option PciDev :=
  devices.find? (fun d => d.address = address)

/-- Replace the registry entry at an address (the JS pass mutates the
found device in place; addresses are unique by `addDevice`). -/
def replaceDevice : List PciDev → PciAddress → PciDev → List PciDev
  | [], _, _ => []
  | d :: rest, addr, newDev =>
    if d.address = addr then newDev :: rest
    else d :: replaceDevice rest addr newDev

/-- State carried by the ACPI attach pass (scan.js lines 659-687): the
device registry and the sparse `acpiDevicesBuses` array of bus handles. -/
structure AttachState where
  devices : List PciDev
  acpiDevicesBuses : Nat → Option AcpiDev

/-- scan.js lines 660-687, one iteration of the ACPI attach pass: locate
the node; register a root bridge's bus handle; stop silently when the node
is unlocated or no registry device matches; otherwise attach the handle
(assign-once, silent) and register a bridge's secondary bus handle. -/
def attachStep (cfg : PciCfg) (st : AttachState) (acpiDevice : AcpiDev) :
    Except String AttachState :=
  match locateAcpiDevice cfg acpiDevice.data acpiDevice.ancestors with
  | .error e => .error e
  | .ok address =>
    let st1 : AttachState :=
      if acpiDevice.data.isRootBridge then
        { st with acpiDevicesBuses := fun b =>
            if b = acpiDevice.data.rootBridgeBusNumber then some acpiDevice
            else st.acpiDevicesBuses b }
      else st
    match address with
    | none => .ok st1
    | some addr =>
      match findDevice st1.devices addr with
      | none => .ok st1
      | some dev =>
        let dev1 := dev.attachAcpiDevice acpiDevice
        if dev1.isBridge then
          match dev1.getSecondaryBus with
          | .error e => .error e
          | .ok (busId, dev2) =>
            .ok { devices := replaceDevice st1.devices addr dev2,
                  acpiDevicesBuses := fun b =>
                    if b = busId then some acpiDevice else st1.acpiDevicesBuses b }
        else .ok { st1 with devices := replaceDevice st1.devices addr dev1 }

/-- scan.js lines 705-746, one iteration of the IRQ routing pass: skip
bridges and buses without a routing table; read the interrupt pin, pin 0
uses no IRQ; scan all routing entries with a non-breaking `forEach` whose
body overwrites `deviceIRQ` on every entry matching the slot and the
0-based-plus-one pin; finally assign the vector (assign-once). -/
def irqRouteStep (busRouting : Nat → Option (List Route)) (dev : PciDev) :
    Except String PciDev :=
  if dev.isBridge then .ok dev
  else
    match busRouting dev.address.bus with
    | none => .ok dev
    | some routing =>
      match dev.interruptPin with
      | .error e => .error e
      | .ok (devicePin, dev1) =>
        if devicePin = 0 then .ok dev1
        else
          let deviceIRQ : Option Nat := routing.foldl
            (fun acc route =>
              if dev1.address.slot ≠ route.deviceId then acc
              else if devicePin ≠ route.pin + 1 then acc
              else some route.irq) none
          match deviceIRQ with
          | none => .ok dev1
          | some irq => dev1.setIRQVector irq

/-- Driver-match metadata looked up by (vendorId, deviceId) in the external
driver registry (spec section 6). -/
structure DriverData where
  driver : Option String
  enabled : Bool
  busMaster : Bool
deriving DecidableEq

/-- Per-BAR argument record handed to drivers and to the snapshot query:
`{type: bar.type, resource: bar.resource}` (scan.js lines 771-774). -/
structure BarSummary where
  type : String
  resource : Resource
deriving DecidableEq

/-- Arguments a driver entry point would be invoked with
(scan.js lines 785-793). -/
structure DriverInvocation where
  driver : String
  bars : List (Option BarSummary)
  irq : Option IrqHandle
  classData : ClassData
  subsystemData : SubsystemData

/-- Decode all six BARs in index order into index-aligned argument slots,
null for absent entries (the loop at scan.js lines 765-778, repeated
verbatim at lines 852-865). -/
def collectBars : List Nat → PciDev → Except String (List (Option BarSummary) × PciDev)
  | [], dev => .ok ([], dev)
  | i :: rest, dev =>
    match dev.getBAR i with
    | .error e => .error e
    | .ok (bar, dev1) =>
      let barData : Option BarSummary :=
        match bar with
        | none => none
        | some b => some ⟨b.type, b.resource⟩
      match collectBars rest dev1 with
      | .error e => .error e
      | .ok (others, dev2) => .ok (barData :: others, dev2)

/-- scan.js lines 749-808, one iteration of the driver start pass.  The
driver-metadata lookup variable is the constant `null` in the source
(line 752: `var driverData = null;`), so the guard at line 754 returns
before the dispatch body; the body (IRQ handle resolution, BAR decoding,
bus-master command writes, entry-point invocation) is embedded after the
guard exactly as written. -/
def driverStartStep (dev : PciDev) : Except String (PciDev × Option DriverInvocation) :=
  let driverData : Option DriverData := none
  match driverData with
  | none => .ok (dev, none)
  | some dd =>
    match dd.driver with
    | none => .ok (dev, none)
    | some driverName =>
      if !dd.enabled then .ok (dev, none)
      else
        let irqVector := dev.getIRQVector
        let irqObject : Option IrqHandle := irqVector.map IrqHandle.irq
        match collectBars [0, 1, 2, 3, 4, 5] dev with
        | .error e => .error e
        | .ok (argsBars, dev1) =>
          let afterBusMaster : Except String PciDev :=
            if dd.busMaster then
              match dev1.setCommandFlag commandFlags.BusMaster with
              | .error e => .error e
              | .ok dev2 => dev2.setCommandFlag commandFlags.MemorySpace
            else .ok dev1
          match afterBusMaster with
          | .error e => .error e
          | .ok dev3 =>
            let cd := dev3.classData
            match cd.2.subsystemData with
            | .error e => .error e
            | .ok (sd, dev4) =>
              .ok (dev4, some ⟨driverName, argsBars, irqObject, cd.1, sd⟩)

/-- JS `pins` array of scan.js line 867: `[null, 'A', 'B', 'C', 'D']`;
an out-of-range index yields undefined, modelled as none. -/
def pinsArr : List (Option String) :=
  [none, some ("A"), some ("B"), some ("C"), some ("D")]

/-- Device summary pushed by `listPciDevices` (scan.js lines 869-882). -/
structure DeviceSummary where
  bus : Nat
  slot : Nat
  func : Nat
  vendorId : Nat
  deviceId : Nat
  className : String
  subsystemData : SubsystemData
  irqVector : Option Nat
  pin : Option String
  pciAccessor : AccessorState
  irq : Option IrqHandle
  bars : List (Option BarSummary)

/-- Body of the `listPciDevices` callback for one non-bridge device
(scan.js lines 837-882), threading the device's accessor cache through
its reads. -/
def deviceSummary (dev : PciDev) : Except String (DeviceSummary × PciDev) :=
  let address := dev.address
  let irqVector := dev.getIRQVector
  let cd := dev.classData
  match cd.2.subsystemData with
  | .error e => .error e
  | .ok (sd, dev2) =>
    match (if dev2.isBridge then .ok (0, dev2) else dev2.interruptPin :
        Except String (Nat × PciDev)) with
    | .error e => .error e
    | .ok (devicePin, dev3) =>
      let irqObject : Option IrqHandle :=
        match irqVector with
        | none => none
        | some v => some (IrqHandle.irq v)
      match collectBars [0, 1, 2, 3, 4, 5] dev3 with
      | .error e => .error e
      | .ok (bars, dev4) =>
        .ok ({ bus := address.bus, slot := address.slot, func := address.func,
               vendorId := dev.vendorId, deviceId := dev.deviceId,
               className := cd.1.className, subsystemData := sd,
               irqVector := irqVector,
               pin := pinsArr.getD devicePin none,
               pciAccessor := dev4.acc,
               irq := irqObject, bars := bars }, dev4)

/-- scan.js lines 829-886, `listPciDevices`: iterate the registry, skip
every bridge device, and collect one summary per remaining device (the
in-place cache mutation of each device is internal to the pass; the
function returns the summaries). -/
def listPciDevices : List PciDev → Except String (List DeviceSummary)
  | [] => .ok []
  | dev :: rest =>
    if dev.isBridge then listPciDevices rest
    else
      match deviceSummary dev with
      | .error e => .error e
      | .ok (s, _) =>
        match listPciDevices rest with
        | .error e => .error e
        | .ok others => .ok (s :: others)

/-- Abbreviation used by the proofs: the BAR field selected by `getBAR`
for an index. -/
def barF (i : Nat) : ConfigField := generalFields.BAR.getD i ⟨0, 0, 0⟩

/-- Value of the first read of the `getBAR` probe sequence: the raw BAR
value as the accessor reports it (through the cache). -/
def barRaw (s : AccessorState) (i : Nat) : Nat := (accessorRead s (barF i)).1

/-- Value of the size-response read of the `getBAR` probe sequence: the
dword read back after the all-ones write (0 if that write fails, which
cannot happen for a BAR field). -/
def barProbeResp (s : AccessorState) (i : Nat) : Nat :=
  match accessorWrite (accessorRead s (barF i)).2 (barF i) 0xffffffff with
  | .error _ => 0
  | .ok s2 => (accessorRead s2 (barF i)).1

/-- Accessor state after the `getBAR` probe sequence (read, write
all-ones, read response, restore). -/
def barProbeState (s : AccessorState) (i : Nat) : AccessorState :=
  let r1 := accessorRead s (barF i)
  if r1.1 = 0 then r1.2
  else
    match accessorWrite r1.2 (barF i) 0xffffffff with
    | .error _ => r1.2
    | .ok s2 =>
      let r2 := accessorRead s2 (barF i)
      match accessorWrite r2.2 (barF i) (r1.1 % 2 ^ 32) with
      | .error _ => r2.2
      | .ok s4 => s4

/-- Classification step of `getBAR` as a function of the raw BAR value and
the probe response (proof-side restatement of the branch structure of
scan.js lines 524-584, used to factor the claim proofs). -/
def barClassify (barAddr barSize : Nat) : Option BarResult :=
  if barAddr = 0 then none
  else if barSize = 0 then none
  else if barAddr &&& 0x04 ≠ 0 then none
  else if barAddr &&& 0x01 ≠ 0 then
    let base := barAddr &&& 0xfffffffc &&& 0xffff
    let size := (not32 (barSize &&& 0xfffffffc) + 1) &&& 0xffff
    if size = 0 then none
    else if base = 0 then none
    else some ⟨"io", base, size, Resource.ioSubrange base (base + size - 1)⟩
  else
    let base := barAddr &&& 0xfffffff0
    let size := (not32 (barSize &&& 0xfffffff0) + 1) &&& 0xffffffff
    if size = 0 then none
    else some ⟨"mem32", base, size, Resource.memBlock base size⟩

/-- Coherence of the accessor cache with the hardware at one offset: the
cache entry is absent or holds the current hardware dword.  Every reachable
accessor state satisfies this (entries are only filled by hardware reads
and evicted before every write). -/
def cacheCoherentAt (s : AccessorState) (o : Nat) : Prop :=
  s.cache o = none ∨ s.cache o = some (hwRead s.hw o)

/-- Shape shared by every entry of the scan.js field tables: a
dword-aligned offset and one of the three supported mask widths placed
inside the dword. -/
def wellFormedField (f : ConfigField) : Prop :=
  f.offset % 4 = 0 ∧
    (f.mask = 0xffffffff ∧ f.shift = 0 ∨
     f.mask = 0xffff ∧ (f.shift = 0 ∨ f.shift = 2) ∨
     f.mask = 0xff ∧ f.shift ≤ 3)

/-- Hardware-side writability of the register bits a field occupies (a
"writable field" in the sense of the spec): the field's bit window of its
register is writable. -/
def fieldWritable (hw : HwState) (f : ConfigField) : Prop :=
  f.mask <<< (8 * f.shift) &&& hw.wmask f.offset = f.mask <<< (8 * f.shift)

/-- Agreement of two accessor states at one offset (hardware dword,
writable mask and cache entry). -/
def accAgreeAt (s t : AccessorState) (o : Nat) : Prop :=
  s.hw.regs o = t.hw.regs o ∧ s.hw.wmask o = t.hw.wmask o ∧ s.cache o = t.cache o

/-- Predicate of the IRQ routing match (scan.js lines 727-741): the entry
is for the device's slot, and the device's 1-based configuration-space pin
equals the entry's 0-based pin plus one. -/
def routeMatches (slot pin : Nat) (route : Route) : Bool :=
  slot == route.deviceId && pin == route.pin + 1

/-- First-match routing lookup, following the spec's words ("First match
wins", spec section 4.5) for comparison with the implementation. -/
def firstMatchIrq (routing : List Route) (slot pin : Nat) : Option Nat :=
  (routing.find? (routeMatches slot pin)).map Route.irq

/-- Cases in which an ACPI node's ancestor chain never reaches a root
bridge, as enumerated by the C7 claim: a non-device node; a device,
non-root-bridge node with a missing or non-device parent; a parent that is
itself unlocatable; or a parent resolved to a valid PCI address whose
masked header type is neither 1 nor 2. -/
def unresolvedAcpiCase (cfg : PciCfg) (node : AcpiDev) : Prop :=
  node.data.isDevice = false ∨
  (node.data.isDevice = true ∧ node.data.isRootBridge = false ∧
    (node.ancestors = [] ∨
     ∃ p rest, node.ancestors = p :: rest ∧
       (p.isDevice = false ∨
        (p.isDevice = true ∧ p.isRootBridge = false ∧
          (locateAcpiDevice cfg p rest = .ok none ∨
           ∃ loc, locateAcpiDevice cfg p rest = .ok (some loc) ∧
             loc.bus % 2 ^ 32 ≤ 255 ∧ loc.slot % 2 ^ 32 ≤ 31 ∧ loc.func % 2 ^ 32 ≤ 7 ∧
             cfgReadField cfg (loc.bus % 2 ^ 32) (loc.slot % 2 ^ 32) (loc.func % 2 ^ 32)
                 fields.HEADER_TYPE &&& 0x7f ≠ 0x01 ∧
             cfgReadField cfg (loc.bus % 2 ^ 32) (loc.slot % 2 ^ 32) (loc.func % 2 ^ 32)
                 fields.HEADER_TYPE &&& 0x7f ≠ 0x02)))))

/-- RAM-like hardware: every bit of every register writable. -/
def hwRam (regs : Nat → Nat) : HwState := ⟨regs, fun _ => 0xffffffff⟩

/-- Fresh accessor over RAM-like registers: empty cache. -/
def freshAcc (regs : Nat → Nat) : AccessorState := ⟨hwRam regs, fun _ => none⟩

/-- Concrete registers for the C1 test device: interrupt pin 3 (byte 1 of
the dword at 0x3c). -/
def c1regs : Nat → Nat := fun o => if o = 0x3c then 0x300 else 0

/-- Concrete non-bridge device at bus 0, slot 5 for the C1 test. -/
def c1dev : PciDev := ⟨⟨0, 5, 0⟩, 0x8086, 0x100e, false, none, none, freshAcc c1regs⟩

/-- Routing table with two entries matching slot 5, pin C (two ACPI pin-2
entries with different vectors). -/
def c1routing : List Route := [⟨5, 2, 11⟩, ⟨5, 2, 42⟩]

/-- Bus routing tables for the C1 test: only bus 0 routed. -/
def c1br : Nat → Option (List Route) := fun b => if b = 0 then some c1routing else none

/-- The C1 test device after its interrupt-pin read. -/
def c1devP : PciDev :=
  { c1dev with acc := (accessorRead c1dev.acc generalFields.INTERRUPT_PIN).2 }

/-- Concrete registers for the C2 counterexample: BAR0 raw value 0x4
(64-bit memory BAR flag set). -/
def c2regs : Nat → Nat := fun o => if o = 0x10 then 0x4 else 0

/-- Concrete non-bridge device for the C2 counterexample. -/
def c2dev : PciDev := ⟨⟨0, 1, 0⟩, 0x10ec, 0x8139, false, none, none, freshAcc c2regs⟩

/-- Concrete registers for the C3 counterexample: BAR0 raw value 0x5
(I/O flag bit 0 and 64-bit flag bit 2 both set). -/
def c3regs : Nat → Nat := fun o => if o = 0x10 then 0x5 else 0

/-- Concrete non-bridge device for the C3 counterexample. -/
def c3dev : PciDev := ⟨⟨0, 2, 0⟩, 0x8086, 0x1237, false, none, none, freshAcc c3regs⟩

/-- Concrete registers for the C3 witness: BAR1 is an I/O BAR at 0xC000. -/
def c3wregs : Nat → Nat := fun o => if o = 0x14 then 0xc001 else 0

/-- Writable masks for the C3 witness: BAR1 decodes 0x40 ports (address
bits above bit 6 writable, low type bits hardwired). -/
def c3wmask : Nat → Nat := fun o => if o = 0x14 then 0xffffffc1 else 0xffffffff

/-- Concrete non-bridge device for the C3 witness. -/
def c3wdev : PciDev :=
  ⟨⟨0, 3, 0⟩, 0x8086, 0x7000, false, none, none, ⟨⟨c3wregs, c3wmask⟩, fun _ => none⟩⟩

/-- Concrete registers for the C4 witness: the section-8 example device,
BAR0 raw 0xfe000000. -/
def c4regs : Nat → Nat := fun o => if o = 0x10 then 0xfe000000 else 0

/-- Writable masks for the C4 witness: BAR0 size 0x100000, so the all-ones
probe responds 0xfff00000. -/
def c4wmask : Nat → Nat := fun o => if o = 0x10 then 0xfff00000 else 0xffffffff

/-- Concrete non-bridge device for the C4 witness. -/
def c4dev : PciDev :=
  ⟨⟨0, 2, 0⟩, 0x8086, 0x100e, false, none, none, ⟨⟨c4regs, c4wmask⟩, fun _ => none⟩⟩

/-- Concrete device for the C5 witness. -/
def c5dev : PciDev := ⟨⟨0, 3, 0⟩, 0x1234, 0x5678, false, none, none, freshAcc (fun _ => 0)⟩

/-- The C5 witness device after its first successful vector assignment. -/
def c5devAfter : PciDev := { c5dev with irqVector := some (11 % 2 ^ 32) }

/-- Accessor for the C6 witness. -/
def c6acc : AccessorState := freshAcc (fun _ => 0)

/-- Trivial global configuration view for the C7 witness. -/
def cfg0 : PciCfg := fun _ _ _ _ => 0

/-- Non-device ACPI node for the C7 witness. -/
def c7node : AcpiDev := ⟨⟨false, false, 0, 0, none⟩, []⟩

/-- Registry device for the C7 witness. -/
def c7dev : PciDev := ⟨⟨0, 1, 0⟩, 5, 6, false, none, none, freshAcc (fun _ => 0)⟩

/-- Attach-pass state for the C7 witness. -/
def c7st : AttachState := ⟨[c7dev], fun _ => none⟩

/-- ACPI handle attached first in the C10 witness. -/
def c10nodeA : AcpiDev := ⟨⟨true, true, 0x20000, 0, none⟩, []⟩

/-- ACPI handle whose later attachment must be ignored in the C10
witness. -/
def c10nodeB : AcpiDev := ⟨⟨true, false, 0x30000, 0, none⟩, []⟩

/-- Device with an already-attached ACPI handle for the C10 witness. -/
def c10dev : PciDev := ⟨⟨0, 2, 0⟩, 1, 2, false, some c10nodeA, none, freshAcc (fun _ => 0)⟩

/-! Theorems.  Helper lemmas come first, then one theorem per claim with
its witness or counterexample. -/

theorem foldl_route_last_match (slot pin : Nat) (routing : List Route) :
    ∀ init : Option Nat,
      routing.foldl
        (fun acc route =>
          if slot ≠ route.deviceId then acc
          else if pin ≠ route.pin + 1 then acc
          else some route.irq) init =
        match routing.reverse.find? (routeMatches slot pin) with
        | some route => some route.irq
        | none => init := by
  induction routing with
  | nil => intro init; simp
  | cons r t ih =>
    intro init
    simp only [List.foldl_cons, List.reverse_cons, List.find?_append]
    rw [ih]
    cases hf : t.reverse.find? (routeMatches slot pin) with
    | some x => simp [Option.or]
    | none =>
      have e1 : ∀ a b : Nat, a = b → (a == b) = true := fun a b h => by simp [h]
      have e2 : ∀ a b : Nat, a ≠ b → (a == b) = false := fun a b h => by simp [h]
      by_cases h1 : slot = r.deviceId <;> by_cases h2 : pin = r.pin + 1
      · simp [routeMatches, List.find?, e1 _ _ h1, e1 _ _ h2, h1, h2]
      · simp [routeMatches, List.find?, e1 _ _ h1, e2 _ _ h2, h1, h2]
      · simp [routeMatches, List.find?, e2 _ _ h1, h1]
      · simp [routeMatches, List.find?, e2 _ _ h1, h1]

/-- C9: the driver-dispatch pass is a no-op for every device: the
driver-metadata lookup variable is the constant null, so the guard returns
before any BAR decoding, command-flag write, or driver entry-point
invocation; no driver is started and the device is unchanged. -/
theorem c9_driver_pass_noop (dev : PciDev) : driverStartStep dev = .ok (dev, none) := rfl

/-- C10: a second call to attachAcpiDevice on a device that already has an
attached ACPI handle returns silently (the operation is total, with no
error outcome) and leaves the originally attached handle unchanged. -/
theorem c10_attach_acpi_second_silent (dev : PciDev) (a other : AcpiDev)
    (h : dev.acpiDevice = some a) :
    dev.attachAcpiDevice other = dev ∧
      (dev.attachAcpiDevice other).acpiDevice = some a := by
  unfold PciDev.attachAcpiDevice
  rw [h]
  exact ⟨rfl, h⟩

/-- Witness for C10 at a concrete device with an attached handle. -/
theorem c10_attach_acpi_second_silent_witness :
    c10dev.attachAcpiDevice c10nodeB = c10dev ∧
      (c10dev.attachAcpiDevice c10nodeB).acpiDevice = some c10nodeA :=
  c10_attach_acpi_second_silent c10dev c10nodeA c10nodeB rfl

/-- C5: once setIRQVector has succeeded, a second call fails with the
already-assigned error and the stored vector is still the first value. -/
theorem c5_set_irq_vector_assign_once (dev dev1 : PciDev) (v1 v2 : Nat)
    (h : dev.setIRQVector v1 = .ok dev1) :
    dev1.setIRQVector v2 = .error ("IRQ vector already set") ∧
      dev1.getIRQVector = some (v1 % 2 ^ 32) := by
  unfold PciDev.setIRQVector at h
  cases hv : dev.irqVector with
  | some w => rw [hv] at h; exact absurd h (by simp)
  | none =>
    rw [hv] at h
    injection h with h1
    subst h1
    exact ⟨rfl, rfl⟩

/-- Witness for C5 at a concrete device. -/
theorem c5_set_irq_vector_assign_once_witness :
    c5devAfter.setIRQVector 7 = .error ("IRQ vector already set") ∧
      c5devAfter.getIRQVector = some (11 % 2 ^ 32) :=
  c5_set_irq_vector_assign_once c5dev c5devAfter 11 7 rfl

/-- C1 (amended): for a non-bridge device whose bus has a routing table,
whose interrupt-pin register is nonzero and whose vector is unassigned,
the IRQ router assigns the irq of the LAST routing entry (in table order)
satisfying entry.deviceId == device.slot and entry.pin + 1 == device.pin;
with no matching entry the vector stays unassigned.  The non-breaking
forEach of the source overwrites the candidate on every match, so the last
match wins, not the first. -/
theorem c1_irq_router_last_match (busRouting : Nat → Option (List Route))
    (dev devP : PciDev) (routing : List Route) (pin : Nat)
    (hb : dev.isBridge = false)
    (hr : busRouting dev.address.bus = some routing)
    (hp : dev.interruptPin = .ok (pin, devP))
    (hpin : pin ≠ 0)
    (hv : dev.irqVector = none) :
    ∃ devOut, irqRouteStep busRouting dev = .ok devOut ∧
      devOut.irqVector =
        match routing.reverse.find? (routeMatches dev.address.slot pin) with
        | some route => some (route.irq % 2 ^ 32)
        | none => none := by
  unfold PciDev.interruptPin at hp
  rw [hb] at hp
  simp only [Bool.false_eq_true, if_false] at hp
  injection hp with hp1
  injection hp1 with hpv hpd
  unfold irqRouteStep
  rw [hb]
  simp only [Bool.false_eq_true, if_false]
  rw [hr]
  unfold PciDev.interruptPin
  rw [hb]
  simp only [Bool.false_eq_true, if_false]
  rw [hpv]
  rw [if_neg hpin]
  rw [foldl_route_last_match]
  cases hf : routing.reverse.find? (routeMatches dev.address.slot pin) with
  | none => exact ⟨_, rfl, hv⟩
  | some route =>
    simp only [PciDev.setIRQVector, hv]
    exact ⟨_, rfl, rfl⟩

/-- Witness for the amended C1 at a concrete device and routing table. -/
theorem c1_irq_router_last_match_witness :
    ∃ devOut, irqRouteStep c1br c1dev = .ok devOut ∧
      devOut.irqVector =
        match c1routing.reverse.find? (routeMatches c1dev.address.slot 3) with
        | some route => some (route.irq % 2 ^ 32)
        | none => none :=
  c1_irq_router_last_match c1br c1dev c1devP c1routing 3 rfl rfl rfl
    (by decide) rfl

/-- C1 counterexample: with two routing entries matching slot 5, pin 3,
the router assigns the irq of the second (last) entry, 42, while the first
matching entry in table order has irq 11 — refuting first-match-wins. -/
theorem c1_first_match_refuted :
    (irqRouteStep c1br c1dev).map PciDev.getIRQVector = .ok (some 42) ∧
      firstMatchIrq c1routing 5 3 = some 11 ∧ (42 : Nat) ≠ 11 :=
  ⟨rfl, rfl, by decide⟩

/-- C7: for every ACPI node in one of the cases whose ancestor chain never
reaches a root bridge (non-device node; device non-root node with missing,
non-device, unlocatable, or resolved-but-not-bridge-typed parent), the
resolver returns the explicit unresolved result (ok none) rather than an
error, and the attach pass leaves every registry device — in particular
its ACPI handle and its irqVector — unchanged while the pipeline
continues. -/
theorem c7_unresolved_acpi_nonfatal (cfg : PciCfg) (node : AcpiDev)
    (h : unresolvedAcpiCase cfg node) :
    locateAcpiDevice cfg node.data node.ancestors = .ok none ∧
      ∀ st : AttachState,
        (attachStep cfg st node).map AttachState.devices = .ok st.devices := by
  have hloc : locateAcpiDevice cfg node.data node.ancestors = .ok none := by
    rcases h with h1 | ⟨hdev, hrb, hanc⟩
    · rw [locateAcpiDevice]
      simp [h1]
    · rcases hanc with hnil | ⟨p, rest, hcons, hp⟩
      · rw [locateAcpiDevice]
        simp [hdev, hrb, hnil]
      · rcases hp with hpnd | ⟨hpdev, hprb, hrec⟩
        · rw [locateAcpiDevice]
          simp [hdev, hrb, hcons, hpnd]
        · rcases hrec with hnone | ⟨loc, hsome, hbu, hsl, hfu, h1, h2⟩
          · rw [locateAcpiDevice]
            simp [hdev, hrb, hcons, hpdev, hprb, hnone]
          · rw [locateAcpiDevice]
            simp only [hdev, hrb, hcons, hpdev, hprb, hsome, Bool.not_true,
              Bool.false_eq_true, if_false]
            rw [if_neg (by omega), if_neg (by omega), if_neg (by omega),
              if_pos ⟨h1, h2⟩]
  refine ⟨hloc, fun st => ?_⟩
  unfold attachStep
  rw [hloc]
  cases hb : node.data.isRootBridge <;> simp [hb, Except.map]

/-- Witness for C7 at a concrete non-device node and attach state. -/
theorem c7_unresolved_acpi_nonfatal_witness :
    locateAcpiDevice cfg0 c7node.data c7node.ancestors = .ok none ∧
      (attachStep cfg0 c7st c7node).map AttachState.devices = .ok c7st.devices := by
  have h := c7_unresolved_acpi_nonfatal cfg0 c7node (Or.inl rfl)
  exact ⟨h.1, h.2 c7st⟩

theorem and_mask32_eq (x : Nat) : x &&& 0xffffffff = x % 2 ^ 32 := by
  have hF : (0xffffffff : Nat) = 2 ^ 32 - 1 := by norm_num
  apply Nat.eq_of_testBit_eq
  intro i
  rw [hF, Nat.testBit_land, Nat.testBit_two_pow_sub_one, Nat.testBit_mod_two_pow]
  exact Bool.and_comm _ _

theorem laneMask_0_4 : laneMask 0 4 = 0xffffffff := by
  unfold laneMask
  norm_num

theorem hwWrite_regs_self (hw : HwState) (o lane width value : Nat) :
    (hwWrite hw o lane width value).regs o =
      (value % 2 ^ (8 * width)) <<< (8 * lane) &&&
          (hw.wmask o &&& 0xffffffff &&& laneMask lane width) |||
        hw.regs o % 2 ^ 32 &&&
          (0xffffffff ^^^ hw.wmask o &&& 0xffffffff &&& laneMask lane width) := by
  unfold hwWrite
  simp

theorem hwWrite_regs_other (hw : HwState) (o lane width value q : Nat) (h : q ≠ o) :
    (hwWrite hw o lane width value).regs q = hw.regs q := by
  unfold hwWrite
  simp [h]

theorem hwWrite_wmask (hw : HwState) (o lane width value : Nat) :
    (hwWrite hw o lane width value).wmask = hw.wmask := rfl

theorem hwWrite_regs_self_lt (hw : HwState) (o lane width value : Nat) :
    (hwWrite hw o lane width value).regs o < 2 ^ 32 := by
  rw [hwWrite_regs_self]
  apply Nat.or_lt_two_pow
  · have h1 : (value % 2 ^ (8 * width)) <<< (8 * lane) &&&
        (hw.wmask o &&& 0xffffffff &&& laneMask lane width) ≤ 0xffffffff :=
      le_trans Nat.and_le_right (le_trans Nat.and_le_left Nat.and_le_right)
    exact lt_of_le_of_lt h1 (by norm_num)
  · exact lt_of_le_of_lt Nat.and_le_left (Nat.mod_lt _ (by norm_num))

theorem hwRead_hwWrite_self (hw : HwState) (o lane width value : Nat) :
    hwRead (hwWrite hw o lane width value) o = (hwWrite hw o lane width value).regs o := by
  unfold hwRead
  exact Nat.mod_eq_of_lt (hwWrite_regs_self_lt hw o lane width value)

theorem accessorRead_hw (s : AccessorState) (f : ConfigField) :
    (accessorRead s f).2.hw = s.hw := by
  unfold accessorRead
  cases s.cache f.offset <;> rfl

theorem accessorRead_cache_other (s : AccessorState) (f : ConfigField) (q : Nat)
    (h : q ≠ f.offset) :
    (accessorRead s f).2.cache q = s.cache q := by
  unfold accessorRead
  cases s.cache f.offset <;> simp [h]

theorem accessorRead_val_coherent (s : AccessorState) (f : ConfigField)
    (hco : cacheCoherentAt s f.offset) :
    (accessorRead s f).1 = dwToFieldValue (hwRead s.hw f.offset) f := by
  unfold accessorRead
  rcases hco with h | h <;> rw [h]

theorem accessorWrite32 (s : AccessorState) (f : ConfigField) (v : Nat)
    (hm : f.mask = 0xffffffff) (ha : f.offset % 4 = 0) :
    accessorWrite s f v =
      .ok ⟨hwWrite s.hw f.offset 0 4 (v % 2 ^ 32), cacheDelete s.cache f.offset⟩ := by
  unfold accessorWrite writeRaw32
  rw [hm]
  simp [ha]

theorem barF_eq (i : Nat) (hi : i ≤ 5) : barF i = ⟨0x10 + 4 * i, 0, 0xffffffff⟩ := by
  interval_cases i <;> rfl

theorem getBAR_normal (dev : PciDev) (i : Nat) (hb : dev.isBridge = false) (hi : i ≤ 5) :
    dev.getBAR i = .ok (barClassify (barRaw dev.acc i) (barProbeResp dev.acc i),
      { dev with acc := barProbeState dev.acc i }) := by
  have hmask : (barF i).mask = 0xffffffff := by rw [barF_eq i hi]
  have hoff : (barF i).offset % 4 = 0 := by
    rw [barF_eq i hi]
    show (16 + 4 * i) % 4 = 0
    omega
  have hw32 : ∀ (s : AccessorState) (v : Nat),
      accessorWrite s (barF i) v =
        .ok ⟨hwWrite s.hw (barF i).offset 0 4 (v % 2 ^ 32),
             cacheDelete s.cache (barF i).offset⟩ :=
    fun s v => accessorWrite32 s _ v hmask hoff
  have hbar : generalFields.BAR.getD i ⟨0, 0, 0⟩ = barF i := rfl
  unfold PciDev.getBAR
  rw [hb]
  simp only [Bool.false_eq_true, if_false]
  rw [if_neg (by omega : ¬ i > 5)]
  rw [hbar]
  unfold barClassify barRaw barProbeResp barProbeState
  simp only [hw32]
  split_ifs <;> rfl

theorem hw_restore (hw : HwState) (o : Nat) :
    hwRead (hwWrite (hwWrite hw o 0 4 0xffffffff) o 0 4 (hwRead hw o)) o = hwRead hw o := by
  unfold hwWrite hwRead laneMask
  simp only [if_pos]
  apply Nat.eq_of_testBit_eq
  intro j
  have hF : (4294967295 : Nat) = 2 ^ 32 - 1 := by norm_num
  rw [hF]
  simp only [Nat.testBit_mod_two_pow, Nat.testBit_lor, Nat.testBit_land,
    Nat.testBit_xor, Nat.testBit_shiftLeft, Nat.testBit_two_pow_sub_one,
    Nat.shiftLeft_zero]
  by_cases hj : j < 32
  · simp only [hj, decide_True]
    cases hw1 : (hw.wmask o).testBit j <;> cases hw2 : (hw.regs o).testBit j <;>
      simp [hj, hw1, hw2]
  · simp [hj]

theorem barProbeState_restores (s : AccessorState) (i : Nat) (hi : i ≤ 5)
    (hco : cacheCoherentAt s (barF i).offset) :
    hwRead (barProbeState s i).hw (barF i).offset = hwRead s.hw (barF i).offset := by
  have hmask : (barF i).mask = 0xffffffff := by rw [barF_eq i hi]
  have hsh : (barF i).shift = 0 := by rw [barF_eq i hi]
  have hoff : (barF i).offset % 4 = 0 := by
    rw [barF_eq i hi]
    show (16 + 4 * i) % 4 = 0
    omega
  have hw32 : ∀ (t : AccessorState) (v : Nat),
      accessorWrite t (barF i) v =
        .ok ⟨hwWrite t.hw (barF i).offset 0 4 (v % 2 ^ 32),
             cacheDelete t.cache (barF i).offset⟩ :=
    fun t v => accessorWrite32 t _ v hmask hoff
  have hA : (accessorRead s (barF i)).1 = hwRead s.hw (barF i).offset := by
    rw [accessorRead_val_coherent s _ hco]
    unfold dwToFieldValue
    rw [hsh, hmask]
    rw [Nat.mul_zero, Nat.shiftRight_zero, and_mask32_eq]
    unfold hwRead
    rw [Nat.mod_mod_of_dvd _ dvd_rfl]
  unfold barProbeState
  simp only [hw32]
  by_cases h0 : (accessorRead s (barF i)).1 = 0
  · rw [if_pos h0, accessorRead_hw]
  · rw [if_neg h0]
    simp only [accessorRead_hw]
    have hlt : hwRead s.hw (barF i).offset < 2 ^ 32 := Nat.mod_lt _ (by norm_num)
    have hAv : (accessorRead s (barF i)).1 % 2 ^ 32 = hwRead s.hw (barF i).offset := by
      rw [hA]
      exact Nat.mod_eq_of_lt hlt
    rw [hAv, Nat.mod_eq_of_lt hlt]
    have hones : (0xffffffff : Nat) % 2 ^ 32 = 0xffffffff := by norm_num
    rw [hones]
    exact hw_restore s.hw (barF i).offset

/-- C2 (amended): for a non-bridge device and valid BAR index whose raw
value is nonzero with bit 2 set and whose all-ones probe response is
nonzero, getBAR returns the absent result (null), exactly as for invalid
BARs: the source tags the branch mem64 but never builds a resource
object, and its final null-object check discards the tag. -/
theorem c2_mem64_returns_absent (dev : PciDev) (i : Nat)
    (hb : dev.isBridge = false) (hi : i ≤ 5)
    (h0 : barRaw dev.acc i ≠ 0)
    (h4 : barRaw dev.acc i &&& 0x04 ≠ 0)
    (hresp : barProbeResp dev.acc i ≠ 0) :
    dev.getBARresult i = .ok none := by
  unfold PciDev.getBARresult
  rw [getBAR_normal dev i hb hi]
  unfold barClassify
  rw [if_neg h0, if_neg hresp, if_pos h4]
  rfl

/-- Witness for the amended C2 at a concrete 64-bit BAR. -/
theorem c2_mem64_returns_absent_witness : c2dev.getBARresult 0 = .ok none :=
  c2_mem64_returns_absent c2dev 0 rfl (by decide) (by decide) (by decide)
    (by decide)

/-- C2 counterexample: at a device whose BAR0 raw value is 0x4 (bit 2
set, nonzero) with nonzero probe response, getBAR returns the absent
(null) result, not a tagged unsupported descriptor. -/
theorem c2_mem64_tagged_result_refuted :
    barRaw c2dev.acc 0 = 0x4 ∧ barRaw c2dev.acc 0 &&& 0x04 ≠ 0 ∧
      barProbeResp c2dev.acc 0 = 0xffffffff ∧
      c2dev.getBARresult 0 = .ok none :=
  ⟨rfl, by decide, rfl, rfl⟩

/-- C3 (amended): for a non-bridge device and valid BAR index whose raw
value is nonzero with bit 0 set AND bit 2 clear, and whose probe response
is nonzero, getBAR classifies the BAR as I/O with base and size given by
the claim's formulas (absent when the computed size or base is zero).
Raw values with bit 2 set take the mem64 branch instead, regardless of
bit 0, because the source tests bit 2 first. -/
theorem c3_io_classification (dev : PciDev) (i : Nat)
    (hb : dev.isBridge = false) (hi : i ≤ 5)
    (h0 : barRaw dev.acc i ≠ 0)
    (h1 : barRaw dev.acc i &&& 0x01 ≠ 0)
    (h4 : barRaw dev.acc i &&& 0x04 = 0)
    (hresp : barProbeResp dev.acc i ≠ 0) :
    dev.getBARresult i = .ok (
      if (not32 (barProbeResp dev.acc i &&& 0xfffffffc) + 1) &&& 0xffff = 0 then none
      else if barRaw dev.acc i &&& 0xfffffffc &&& 0xffff = 0 then none
      else some ⟨"io", barRaw dev.acc i &&& 0xfffffffc &&& 0xffff,
                 (not32 (barProbeResp dev.acc i &&& 0xfffffffc) + 1) &&& 0xffff,
                 Resource.ioSubrange (barRaw dev.acc i &&& 0xfffffffc &&& 0xffff)
                   ((barRaw dev.acc i &&& 0xfffffffc &&& 0xffff) +
                     ((not32 (barProbeResp dev.acc i &&& 0xfffffffc) + 1) &&& 0xffff) -
                       1)⟩) := by
  unfold PciDev.getBARresult
  rw [getBAR_normal dev i hb hi]
  unfold barClassify
  rw [if_neg h0, if_neg hresp, if_neg (show ¬barRaw dev.acc i &&& 0x04 ≠ 0 by simp [h4]),
    if_pos h1]
  simp only [Except.map]

/-- Witness for the amended C3 at a concrete I/O BAR (index 1, raw
0xc001, 0x40 ports at base 0xc000). -/
theorem c3_io_classification_witness :
    c3wdev.getBARresult 1 = .ok (
      if (not32 (barProbeResp c3wdev.acc 1 &&& 0xfffffffc) + 1) &&& 0xffff = 0 then none
      else if barRaw c3wdev.acc 1 &&& 0xfffffffc &&& 0xffff = 0 then none
      else some ⟨"io", barRaw c3wdev.acc 1 &&& 0xfffffffc &&& 0xffff,
                 (not32 (barProbeResp c3wdev.acc 1 &&& 0xfffffffc) + 1) &&& 0xffff,
                 Resource.ioSubrange (barRaw c3wdev.acc 1 &&& 0xfffffffc &&& 0xffff)
                   ((barRaw c3wdev.acc 1 &&& 0xfffffffc &&& 0xffff) +
                     ((not32 (barProbeResp c3wdev.acc 1 &&& 0xfffffffc) + 1) &&& 0xffff) -
                       1)⟩) :=
  c3_io_classification c3wdev 1 rfl (by decide) (by decide) (by decide) (by decide)
    (by decide)

/-- C3 counterexample: at a device whose BAR0 raw value is 0x5 (bits 0
and 2 both set, nonzero) with nonzero probe response, getBAR returns the
absent result instead of the I/O classification the claim requires for
every raw value with bit 0 set. -/
theorem c3_io_precedence_refuted :
    barRaw c3dev.acc 0 = 0x5 ∧ barRaw c3dev.acc 0 &&& 0x01 ≠ 0 ∧
      barRaw c3dev.acc 0 &&& 0x04 ≠ 0 ∧
      barProbeResp c3dev.acc 0 = 0xffffffff ∧
      c3dev.getBARresult 0 = .ok none :=
  ⟨rfl, by decide, by decide, rfl, rfl⟩

/-- C4: BAR probing is non-destructive: for a non-bridge device, a valid
index, a cache entry coherent with the hardware and a nonzero raw BAR
value, the raw dword of the BAR register after getBAR equals its pre-probe
value, whatever the call returns (the probe writes all-ones, reads the
size response, then restores the original value). -/
theorem c4_bar_probe_nondestructive (dev : PciDev) (i : Nat)
    (hb : dev.isBridge = false) (hi : i ≤ 5)
    (hco : cacheCoherentAt dev.acc (barF i).offset)
    (h0 : barRaw dev.acc i ≠ 0) :
    (dev.getBAR i).map (fun p => hwRead p.2.acc.hw (barF i).offset) =
      .ok (hwRead dev.acc.hw (barF i).offset) := by
  rw [getBAR_normal dev i hb hi]
  show Except.ok (hwRead (barProbeState dev.acc i).hw (barF i).offset) = _
  rw [barProbeState_restores dev.acc i hi hco]

/-- Witness for C4 at the section-8 example device: BAR0 raw 0xfe000000,
probe response 0xfff00000. -/
theorem c4_bar_probe_nondestructive_witness :
    (c4dev.getBAR 0).map (fun p => hwRead p.2.acc.hw (barF 0).offset) =
      .ok (hwRead c4dev.acc.hw (barF 0).offset) :=
  c4_bar_probe_nondestructive c4dev 0 rfl (by decide) (Or.inl rfl) (by decide)

theorem window_roundtrip (H wm v sh w : Nat) (hbw : 8 * sh + 8 * w ≤ 32)
    (hwr : (2 ^ (8 * w) - 1) <<< (8 * sh) &&& wm = (2 ^ (8 * w) - 1) <<< (8 * sh)) :
    ((v % 2 ^ (8 * w)) <<< (8 * sh) &&& (wm &&& 0xffffffff &&& laneMask sh w) |||
        H % 2 ^ 32 &&& (0xffffffff ^^^ wm &&& 0xffffffff &&& laneMask sh w)) >>>
        (8 * sh) &&& (2 ^ (8 * w) - 1) = v % 2 ^ (8 * w) := by
  have hF : (0xffffffff : Nat) = 2 ^ 32 - 1 := by norm_num
  apply Nat.eq_of_testBit_eq
  intro j
  rw [hF]
  unfold laneMask
  simp only [Nat.testBit_land, Nat.testBit_lor, Nat.testBit_xor,
    Nat.testBit_shiftLeft, Nat.testBit_shiftRight, Nat.testBit_mod_two_pow,
    Nat.testBit_two_pow_sub_one]
  by_cases hj : j < 8 * w
  · have hge : 8 * sh + j ≥ 8 * sh := by omega
    have hsub : 8 * sh + j - 8 * sh = j := by omega
    have h32 : 8 * sh + j < 32 := by omega
    have hwmbit : wm.testBit (8 * sh + j) = true := by
      have hc := congrArg (fun x => x.testBit (8 * sh + j)) hwr
      simp only [Nat.testBit_land, Nat.testBit_shiftLeft,
        Nat.testBit_two_pow_sub_one, hge, hsub, hj, decide_True, ge_iff_le,
        le_refl, Bool.true_and] at hc
      exact hc
    simp [hge, hsub, h32, hj, hwmbit]
  · simp [hj]

theorem hwWrite_readback (hw : HwState) (o sh w v : Nat) (hbw : 8 * sh + 8 * w ≤ 32)
    (hwr : (2 ^ (8 * w) - 1) <<< (8 * sh) &&& hw.wmask o = (2 ^ (8 * w) - 1) <<< (8 * sh)) :
    hwRead (hwWrite hw o sh w v) o >>> (8 * sh) &&& (2 ^ (8 * w) - 1) = v % 2 ^ (8 * w) := by
  rw [hwRead_hwWrite_self, hwWrite_regs_self]
  exact window_roundtrip (hw.regs o) (hw.wmask o) v sh w hbw hwr

theorem accessorWrite16 (s : AccessorState) (f : ConfigField) (v : Nat)
    (hm : f.mask = 0xffff) (ha : f.offset % 4 = 0) (hsh : f.shift < 4)
    (hsh2 : f.shift % 2 = 0) :
    accessorWrite s f v =
      .ok ⟨hwWrite s.hw f.offset f.shift 2 (v &&& 0xffff),
           cacheDelete s.cache f.offset⟩ := by
  unfold accessorWrite writeRaw16
  rw [hm]
  have h1 : (f.offset + f.shift) % 2 = 0 := by omega
  have h2 : (f.offset + f.shift) % 4 = f.shift := by omega
  have h3 : f.offset + f.shift - (f.offset + f.shift) % 4 = f.offset := by omega
  simp [h1, h2, h3]

theorem accessorWrite8 (s : AccessorState) (f : ConfigField) (v : Nat)
    (hm : f.mask = 0xff) (ha : f.offset % 4 = 0) (hsh : f.shift < 4) :
    accessorWrite s f v =
      .ok ⟨hwWrite s.hw f.offset f.shift 1 (v &&& 0xff),
           cacheDelete s.cache f.offset⟩ := by
  unfold accessorWrite writeRaw8
  rw [hm]
  have h2 : (f.offset + f.shift) % 4 = f.shift := by omega
  have h3 : f.offset + f.shift - (f.offset + f.shift) % 4 = f.offset := by omega
  simp [h2, h3]

theorem accessorRead_after_none (t : AccessorState) (g : ConfigField)
    (h : t.cache g.offset = none) :
    (accessorRead t g).1 = dwToFieldValue (hwRead t.hw g.offset) g := by
  unfold accessorRead
  rw [h]

/-- C6: for every accessor state and well-formed, hardware-writable field,
write(field, v) succeeds with a state whose cache entry for the field's
offset is deleted (the eviction happens before the hardware write), so a
subsequent read of any field at that offset decodes the hardware dword,
and a write-then-read round-trip on the field returns the written value
masked to the field width, never a stale cached dword. -/
theorem c6_write_evicts_cache_roundtrip (s : AccessorState) (f : ConfigField) (v : Nat)
    (hwf : wellFormedField f) (hwr : fieldWritable s.hw f) :
    ∃ s2, accessorWrite s f v = .ok s2 ∧
      s2.cache f.offset = none ∧
      (∀ g : ConfigField, g.offset = f.offset →
        (accessorRead s2 g).1 = dwToFieldValue (hwRead s2.hw f.offset) g) ∧
      (accessorRead s2 f).1 = v &&& f.mask := by
  obtain ⟨ha, hcase⟩ := hwf
  unfold fieldWritable at hwr
  have hnone : ∀ c : Nat → Option Nat, cacheDelete c f.offset f.offset = none := by
    intro c
    unfold cacheDelete
    simp
  rcases hcase with ⟨hm, hsh⟩ | ⟨hm, hsh⟩ | ⟨hm, hsh⟩
  · refine ⟨_, accessorWrite32 s f v hm ha, hnone s.cache, fun g hg => ?_, ?_⟩
    · have hcg : (⟨hwWrite s.hw f.offset 0 4 (v % 2 ^ 32),
          cacheDelete s.cache f.offset⟩ : AccessorState).cache g.offset = none := by
        rw [hg]
        exact hnone s.cache
      rw [accessorRead_after_none _ g hcg, hg]
    · rw [accessorRead_after_none _ f (hnone s.cache)]
      unfold dwToFieldValue
      rw [hsh, hm]
      have hwr2 : (2 ^ (8 * 4) - 1) <<< (8 * 0) &&& s.hw.wmask f.offset =
          (2 ^ (8 * 4) - 1) <<< (8 * 0) := by
        rw [hm, hsh] at hwr
        simpa using hwr
      have hr := hwWrite_readback s.hw f.offset 0 4 (v % 2 ^ 32) (by omega) hwr2
      simpa [and_mask32_eq] using hr
  · refine ⟨_, accessorWrite16 s f v hm ha (by omega) (by omega), hnone s.cache,
      fun g hg => ?_, ?_⟩
    · have hcg : (⟨hwWrite s.hw f.offset f.shift 2 (v &&& 0xffff),
          cacheDelete s.cache f.offset⟩ : AccessorState).cache g.offset = none := by
        rw [hg]
        exact hnone s.cache
      rw [accessorRead_after_none _ g hcg, hg]
    · rw [accessorRead_after_none _ f (hnone s.cache)]
      unfold dwToFieldValue
      rw [hm]
      have hwr2 : (2 ^ (8 * 2) - 1) <<< (8 * f.shift) &&& s.hw.wmask f.offset =
          (2 ^ (8 * 2) - 1) <<< (8 * f.shift) := by
        rw [hm] at hwr
        simpa using hwr
      have hvm : (v &&& 0xffff) % 65536 = v &&& 0xffff :=
        Nat.mod_eq_of_lt (lt_of_le_of_lt Nat.and_le_right (by norm_num))
      have hr := hwWrite_readback s.hw f.offset f.shift 2 (v &&& 0xffff) (by omega) hwr2
      simpa [hvm] using hr
  · refine ⟨_, accessorWrite8 s f v hm ha (by omega), hnone s.cache,
      fun g hg => ?_, ?_⟩
    · have hcg : (⟨hwWrite s.hw f.offset f.shift 1 (v &&& 0xff),
          cacheDelete s.cache f.offset⟩ : AccessorState).cache g.offset = none := by
        rw [hg]
        exact hnone s.cache
      rw [accessorRead_after_none _ g hcg, hg]
    · rw [accessorRead_after_none _ f (hnone s.cache)]
      unfold dwToFieldValue
      rw [hm]
      have hwr2 : (2 ^ (8 * 1) - 1) <<< (8 * f.shift) &&& s.hw.wmask f.offset =
          (2 ^ (8 * 1) - 1) <<< (8 * f.shift) := by
        rw [hm] at hwr
        simpa using hwr
      have hvm : (v &&& 0xff) % 256 = v &&& 0xff :=
        Nat.mod_eq_of_lt (lt_of_le_of_lt Nat.and_le_right (by norm_num))
      have hr := hwWrite_readback s.hw f.offset f.shift 1 (v &&& 0xff) (by omega) hwr2
      simpa [hvm] using hr

/-- Witness for C6: writing 0x146 to the COMMAND field of a fresh
RAM-like accessor. -/
theorem c6_write_evicts_cache_roundtrip_witness :
    ∃ s2, accessorWrite c6acc fields.COMMAND 0x146 = .ok s2 ∧
      s2.cache fields.COMMAND.offset = none ∧
      (∀ g : ConfigField, g.offset = fields.COMMAND.offset →
        (accessorRead s2 g).1 = dwToFieldValue (hwRead s2.hw fields.COMMAND.offset) g) ∧
      (accessorRead s2 fields.COMMAND).1 = 0x146 &&& fields.COMMAND.mask :=
  c6_write_evicts_cache_roundtrip c6acc fields.COMMAND 0x146
    (by unfold wellFormedField; decide) (by unfold fieldWritable; decide)

theorem accAgreeAt_refl (s : AccessorState) (o : Nat) : accAgreeAt s s o :=
  ⟨rfl, rfl, rfl⟩

theorem accAgreeAt_trans (a b c : AccessorState) (o : Nat)
    (h1 : accAgreeAt a b o) (h2 : accAgreeAt b c o) : accAgreeAt a c o := by
  obtain ⟨x1, y1, z1⟩ := h1
  obtain ⟨x2, y2, z2⟩ := h2
  exact ⟨x1.trans x2, y1.trans y2, z1.trans z2⟩

theorem accessorRead_agree (s : AccessorState) (f : ConfigField) (o : Nat)
    (h : o ≠ f.offset) : accAgreeAt (accessorRead s f).2 s o := by
  refine ⟨?_, ?_, accessorRead_cache_other s f o h⟩
  · rw [accessorRead_hw]
  · rw [accessorRead_hw]

theorem cacheDelete_other (c : Nat → Option Nat) (off o : Nat) (h : o ≠ off) :
    cacheDelete c off o = c o := by
  unfold cacheDelete
  simp [h]

theorem barProbeState_agree (s : AccessorState) (i : Nat) (hi : i ≤ 5) (o : Nat)
    (h : o ≠ (barF i).offset) : accAgreeAt (barProbeState s i) s o := by
  have hmask : (barF i).mask = 0xffffffff := by rw [barF_eq i hi]
  have hoff : (barF i).offset % 4 = 0 := by
    rw [barF_eq i hi]
    show (16 + 4 * i) % 4 = 0
    omega
  have hw32 : ∀ (t : AccessorState) (v : Nat),
      accessorWrite t (barF i) v =
        .ok ⟨hwWrite t.hw (barF i).offset 0 4 (v % 2 ^ 32),
             cacheDelete t.cache (barF i).offset⟩ :=
    fun t v => accessorWrite32 t _ v hmask hoff
  have hro : ∀ (hw : HwState) (v : Nat),
      (hwWrite hw (barF i).offset 0 4 v).regs o = hw.regs o :=
    fun hw v => hwWrite_regs_other hw _ 0 4 v o h
  have hcd : ∀ c : Nat → Option Nat, cacheDelete c (barF i).offset o = c o :=
    fun c => cacheDelete_other c _ o h
  have hrc : ∀ t : AccessorState, (accessorRead t (barF i)).2.cache o = t.cache o :=
    fun t => accessorRead_cache_other t _ o h
  unfold barProbeState
  simp only [hw32]
  by_cases h0 : (accessorRead s (barF i)).1 = 0
  · rw [if_pos h0]
    exact accessorRead_agree s _ o h
  · rw [if_neg h0]
    refine ⟨?_, ?_, ?_⟩
    · simp only [hro, accessorRead_hw]
    · simp only [hwWrite_wmask, accessorRead_hw]
    · simp only [hcd, hrc]

theorem barRaw_congr (s t : AccessorState) (i : Nat)
    (h : accAgreeAt s t (barF i).offset) : barRaw s i = barRaw t i := by
  obtain ⟨hr, hwm, hc⟩ := h
  unfold barRaw accessorRead
  rw [hc]
  cases t.cache (barF i).offset with
  | some v => rfl
  | none => simp only [hwRead, hr]

theorem barProbeResp_congr (s t : AccessorState) (i : Nat) (hi : i ≤ 5)
    (h : accAgreeAt s t (barF i).offset) : barProbeResp s i = barProbeResp t i := by
  obtain ⟨hr, hwm, hc⟩ := h
  have hmask : (barF i).mask = 0xffffffff := by rw [barF_eq i hi]
  have hoff : (barF i).offset % 4 = 0 := by
    rw [barF_eq i hi]
    show (16 + 4 * i) % 4 = 0
    omega
  have hw32 : ∀ (u : AccessorState) (v : Nat),
      accessorWrite u (barF i) v =
        .ok ⟨hwWrite u.hw (barF i).offset 0 4 (v % 2 ^ 32),
             cacheDelete u.cache (barF i).offset⟩ :=
    fun u v => accessorWrite32 u _ v hmask hoff
  unfold barProbeResp
  simp only [hw32]
  rw [accessorRead_after_none _ _ (by unfold cacheDelete; simp),
    accessorRead_after_none _ _ (by unfold cacheDelete; simp)]
  rw [hwRead_hwWrite_self, hwRead_hwWrite_self, hwWrite_regs_self, hwWrite_regs_self]
  simp only [accessorRead_hw]
  rw [hr, hwm]

theorem collectBars_spec (acc0 : AccessorState) :
    ∀ (ks : List Nat) (dev : PciDev),
      dev.isBridge = false →
      (∀ k ∈ ks, k ≤ 5) →
      List.Pairwise (fun a b => (barF a).offset ≠ (barF b).offset) ks →
      (∀ k ∈ ks, accAgreeAt dev.acc acc0 (barF k).offset) →
      ∃ devEnd, collectBars ks dev =
        .ok (ks.map (fun k => (barClassify (barRaw acc0 k) (barProbeResp acc0 k)).map
            (fun b => (⟨b.type, b.resource⟩ : BarSummary))), devEnd) := by
  intro ks
  induction ks with
  | nil =>
    intro dev hb _ _ _
    exact ⟨dev, rfl⟩
  | cons k rest ih =>
    intro dev hb hks hpw hag
    have hk5 : k ≤ 5 := hks k (List.mem_cons_self k rest)
    have hagk : accAgreeAt dev.acc acc0 (barF k).offset :=
      hag k (List.mem_cons_self k rest)
    obtain ⟨hhead, htail⟩ := List.pairwise_cons.mp hpw
    have hag2 : ∀ k2 ∈ rest,
        accAgreeAt ({ dev with acc := barProbeState dev.acc k } : PciDev).acc acc0
          (barF k2).offset := by
      intro k2 hk2
      exact accAgreeAt_trans _ _ _ _
        (barProbeState_agree dev.acc k hk5 _ (Ne.symm (hhead k2 hk2)))
        (hag k2 (List.mem_cons_of_mem k hk2))
    obtain ⟨devEnd, hrec⟩ := ih { dev with acc := barProbeState dev.acc k } hb
      (fun k2 hk2 => hks k2 (List.mem_cons_of_mem k hk2)) htail hag2
    refine ⟨devEnd, ?_⟩
    unfold collectBars
    rw [getBAR_normal dev k hb hk5]
    simp only [barRaw_congr dev.acc acc0 k hagk,
      barProbeResp_congr dev.acc acc0 k hk5 hagk, hrec]
    cases hcb : barClassify (barRaw acc0 k) (barProbeResp acc0 k) <;>
      simp [List.map_cons, hcb]

theorem deviceSummary_spec (dev : PciDev) (hb : dev.isBridge = false) :
    ∃ sm dev4, deviceSummary dev = .ok (sm, dev4) ∧
      sm.bus = dev.address.bus ∧ sm.slot = dev.address.slot ∧
      sm.func = dev.address.func ∧
      sm.vendorId = dev.vendorId ∧ sm.deviceId = dev.deviceId ∧
      sm.bars = [0, 1, 2, 3, 4, 5].map
        (fun k => (barClassify (barRaw dev.acc k) (barProbeResp dev.acc k)).map
          (fun b => (⟨b.type, b.resource⟩ : BarSummary))) := by
  have step : ∀ (t : AccessorState) (g : ConfigField) (o : Nat),
      o ≠ g.offset → accAgreeAt t dev.acc o →
      accAgreeAt (accessorRead t g).2 dev.acc o :=
    fun t g o hne hprev =>
      accAgreeAt_trans _ _ _ _ (accessorRead_agree t g o hne) hprev
  have hag3 : ∀ k ∈ [0, 1, 2, 3, 4, 5],
      accAgreeAt ((accessorRead (accessorRead (accessorRead (accessorRead
          (accessorRead dev.acc fields.CLASS_CODE).2 fields.SUBCLASS).2
          generalFields.SUBSYS_ID).2 generalFields.SUBSYS_VENDOR).2
          generalFields.INTERRUPT_PIN).2) dev.acc (barF k).offset := by
    intro k hk
    have hk5 : k ≤ 5 := by
      simp at hk
      omega
    have ho : (barF k).offset = 16 + 4 * k := by rw [barF_eq k hk5]
    refine step _ _ _ ?_ (step _ _ _ ?_ (step _ _ _ ?_ (step _ _ _ ?_
      (step _ _ _ ?_ (accAgreeAt_refl _ _)))))
    · rw [ho]
      show 16 + 4 * k ≠ 60
      omega
    · rw [ho]
      show 16 + 4 * k ≠ 44
      omega
    · rw [ho]
      show 16 + 4 * k ≠ 44
      omega
    · rw [ho]
      show 16 + 4 * k ≠ 8
      omega
    · rw [ho]
      show 16 + 4 * k ≠ 8
      omega
  obtain ⟨devEnd, hcb⟩ := collectBars_spec dev.acc [0, 1, 2, 3, 4, 5]
    ⟨dev.address, dev.vendorId, dev.deviceId, false, dev.acpiDevice, dev.irqVector,
      (accessorRead (accessorRead (accessorRead (accessorRead
        (accessorRead dev.acc fields.CLASS_CODE).2 fields.SUBCLASS).2
        generalFields.SUBSYS_ID).2 generalFields.SUBSYS_VENDOR).2
        generalFields.INTERRUPT_PIN).2⟩
    rfl (by decide) (by decide) hag3
  unfold deviceSummary PciDev.classData PciDev.subsystemData PciDev.interruptPin
  simp only [hb, Bool.false_eq_true, if_false]
  rw [hcb]
  exact ⟨_, _, rfl, rfl, rfl, rfl, rfl, rfl, rfl⟩

/-- C8: listPciDevices returns one summary for exactly the non-bridge
devices of the registry, in order (every bridge is excluded), and every
summary has exactly 6 BAR slots with null exactly at the indexes whose
BAR probe reports absent. -/
theorem c8_list_pci_devices_shape (devs : List PciDev) :
    ∃ l, listPciDevices devs = .ok l ∧
      List.Forall₂ (fun dev sm =>
        sm.bus = dev.address.bus ∧ sm.slot = dev.address.slot ∧
        sm.func = dev.address.func ∧
        sm.vendorId = dev.vendorId ∧ sm.deviceId = dev.deviceId ∧
        sm.bars.length = 6 ∧
        ∀ i, i < 6 → (sm.bars.getD i none = none ↔ dev.getBARresult i = .ok none))
      (devs.filter (fun d => !d.isBridge)) l := by
  induction devs with
  | nil => exact ⟨[], rfl, List.Forall₂.nil⟩
  | cons dev rest ih =>
    obtain ⟨l, hl, hf⟩ := ih
    by_cases hb : dev.isBridge
    · refine ⟨l, ?_, ?_⟩
      · unfold listPciDevices
        rw [if_pos hb]
        exact hl
      · simpa [List.filter_cons, hb] using hf
    · have hb2 : dev.isBridge = false := by simpa using hb
      obtain ⟨sm, dev4, hds, h1, h2, h3, h4, h5, hbars⟩ := deviceSummary_spec dev hb2
      refine ⟨sm :: l, ?_, ?_⟩
      · unfold listPciDevices
        rw [if_neg hb, hds, hl]
      · rw [List.filter_cons, if_pos (by simp [hb2])]
        refine List.Forall₂.cons ⟨h1, h2, h3, h4, h5, ?_, ?_⟩ hf
        · rw [hbars]
          rfl
        · intro i hi
          unfold PciDev.getBARresult
          rw [getBAR_normal dev i hb2 (by omega), hbars]
          show _ ↔ Except.ok (barClassify (barRaw dev.acc i) (barProbeResp dev.acc i)) =
            Except.ok none
          rw [Except.ok.injEq]
          interval_cases i <;>
            simp [List.getD, Option.map_eq_none']
